import Mathlib

/-!
Verification of the module decoder of the `llvm-ir` crate (`src/module.rs`).

The Rust source decodes a foreign (llvm-sys) module graph into an owned
`Module` value in two passes: pass 1 maps every global object to a `Name`
(textual, or numbered by a shared counter), pass 2 decodes each entity,
resolving cross-references through the pass-1 table.

This file shallowly embeds that decoder.  The foreign graph (`LLVMModule`
and friends) replaces raw `LLVMValueRef` pointers by `Nat` identities; Rust
panics are modelled by the `Panic` error channel of `Except`.  Definitions
that embed code living in `src/module.rs` follow it line by line; helpers
from the crate's other files (name.rs, types.rs, constant.rs, function.rs,
metadata.rs, from_llvm.rs), which are not part of the source under review,
are modelled from the design document and marked as such.
-/

namespace LlvmIr

/-! ## Names (modelled from the spec) -/

/-- Modelled from the spec: `Name` (crate file name.rs, not in the reviewed
source).  An Identifier is "either a textual name (non-empty string taken
from the source) or a synthesized sequence number" (§3). -/
inductive Name where
  | name (s : String)
  | number (n : Nat)
deriving DecidableEq, Repr

/-- Modelled from the spec: `Name::name_or_num` (name.rs, not in the
reviewed source), the Name Allocator of §4.1: "If the textual name is
non-empty, return the textual form; otherwise return the current counter
value and advance the counter."  The source's `&mut usize` counter becomes
explicit state passing. -/
def Name.name_or_num (s : String) (ctr : Nat) : Name × Nat :=
  if s = "" then (Name.number ctr, ctr + 1) else (Name.name s, ctr)

/-! ## Foreign-side (llvm-sys) enumerations, as matched in src/module.rs -/

inductive LLVMLinkage where
  | LLVMExternalLinkage | LLVMAvailableExternallyLinkage
  | LLVMLinkOnceAnyLinkage | LLVMLinkOnceODRLinkage
  | LLVMLinkOnceODRAutoHideLinkage | LLVMWeakAnyLinkage
  | LLVMWeakODRLinkage | LLVMAppendingLinkage | LLVMInternalLinkage
  | LLVMPrivateLinkage | LLVMDLLImportLinkage | LLVMDLLExportLinkage
  | LLVMExternalWeakLinkage | LLVMGhostLinkage | LLVMCommonLinkage
  | LLVMLinkerPrivateLinkage | LLVMLinkerPrivateWeakLinkage
deriving DecidableEq, Repr

inductive LLVMVisibility where
  | LLVMDefaultVisibility | LLVMHiddenVisibility | LLVMProtectedVisibility
deriving DecidableEq, Repr

inductive LLVMDLLStorageClass where
  | LLVMDefaultStorageClass | LLVMDLLImportStorageClass | LLVMDLLExportStorageClass
deriving DecidableEq, Repr

inductive LLVMThreadLocalMode where
  | LLVMNotThreadLocal | LLVMGeneralDynamicTLSModel | LLVMLocalDynamicTLSModel
  | LLVMInitialExecTLSModel | LLVMLocalExecTLSModel
deriving DecidableEq, Repr

inductive LLVMUnnamedAddr where
  | LLVMNoUnnamedAddr | LLVMLocalUnnamedAddr | LLVMGlobalUnnamedAddr
deriving DecidableEq, Repr

inductive LLVMComdatSelectionKind where
  | LLVMAnyComdatSelectionKind | LLVMExactMatchComdatSelectionKind
  | LLVMLargestComdatSelectionKind | LLVMNoDuplicatesComdatSelectionKind
  | LLVMSameSizeComdatSelectionKind
deriving DecidableEq, Repr

/-- The C API exposes a comdat only through `LLVMGetComdatSelectionKind`;
an `LLVMComdatRef` is modelled as a carrier of that selection kind. -/
structure LLVMComdatRef where
  selection_kind : LLVMComdatSelectionKind
deriving DecidableEq, Repr

/-! ## Target-model enumerations (src/module.rs lines 150-235) -/

inductive UnnamedAddr where
  | Local | Global
deriving DecidableEq, Repr

inductive Linkage where
  | Private | Internal | External | ExternalWeak | AvailableExternally
  | LinkOnceAny | LinkOnceODR | LinkOnceODRAutoHide | WeakAny | WeakODR
  | Common | Appending | DLLImport | DLLExport | Ghost
  | LinkerPrivate | LinkerPrivateWeak
deriving DecidableEq, Repr

inductive Visibility where
  | Default | Hidden | Protected
deriving DecidableEq, Repr

inductive DLLStorageClass where
  | Default | Import | Export
deriving DecidableEq, Repr

inductive ThreadLocalMode where
  | NotThreadLocal | GeneralDynamic | LocalDynamic | InitialExec | LocalExec
deriving DecidableEq, Repr

/-- `AddrSpace` (src/module.rs line 205): `pub type AddrSpace = u32`. -/
abbrev AddrSpace := Nat

inductive SelectionKind where
  | Any | ExactMatch | Largest | NoDuplicates | SameSize
deriving DecidableEq, Repr

/-- `Comdat` (src/module.rs lines 222-226). -/
structure Comdat where
  name : String
  selection_kind : SelectionKind
deriving DecidableEq, Repr

/-! ## Mechanical enum translations (src/module.rs lines 434-519) -/

/-- `UnnamedAddr::from_llvm` (src/module.rs lines 434-442). -/
def UnnamedAddr.from_llvm (ua : LLVMUnnamedAddr) : Option UnnamedAddr :=
  match ua with
  | LLVMUnnamedAddr.LLVMNoUnnamedAddr => none
  | LLVMUnnamedAddr.LLVMLocalUnnamedAddr => some UnnamedAddr.Local
  | LLVMUnnamedAddr.LLVMGlobalUnnamedAddr => some UnnamedAddr.Global

/-- `Linkage::from_llvm` (src/module.rs lines 444-466). -/
def Linkage.from_llvm (linkage : LLVMLinkage) : Linkage :=
  match linkage with
  | LLVMLinkage.LLVMExternalLinkage => Linkage.External
  | LLVMLinkage.LLVMAvailableExternallyLinkage => Linkage.AvailableExternally
  | LLVMLinkage.LLVMLinkOnceAnyLinkage => Linkage.LinkOnceAny
  | LLVMLinkage.LLVMLinkOnceODRLinkage => Linkage.LinkOnceODR
  | LLVMLinkage.LLVMLinkOnceODRAutoHideLinkage => Linkage.LinkOnceODRAutoHide
  | LLVMLinkage.LLVMWeakAnyLinkage => Linkage.WeakAny
  | LLVMLinkage.LLVMWeakODRLinkage => Linkage.WeakODR
  | LLVMLinkage.LLVMAppendingLinkage => Linkage.Appending
  | LLVMLinkage.LLVMInternalLinkage => Linkage.Internal
  | LLVMLinkage.LLVMPrivateLinkage => Linkage.Private
  | LLVMLinkage.LLVMDLLImportLinkage => Linkage.DLLImport
  | LLVMLinkage.LLVMDLLExportLinkage => Linkage.DLLExport
  | LLVMLinkage.LLVMExternalWeakLinkage => Linkage.ExternalWeak
  | LLVMLinkage.LLVMGhostLinkage => Linkage.Ghost
  | LLVMLinkage.LLVMCommonLinkage => Linkage.Common
  | LLVMLinkage.LLVMLinkerPrivateLinkage => Linkage.LinkerPrivate
  | LLVMLinkage.LLVMLinkerPrivateWeakLinkage => Linkage.LinkerPrivateWeak

/-- `Visibility::from_llvm` (src/module.rs lines 468-476). -/
def Visibility.from_llvm (visibility : LLVMVisibility) : Visibility :=
  match visibility with
  | LLVMVisibility.LLVMDefaultVisibility => Visibility.Default
  | LLVMVisibility.LLVMHiddenVisibility => Visibility.Hidden
  | LLVMVisibility.LLVMProtectedVisibility => Visibility.Protected

/-- `DLLStorageClass::from_llvm` (src/module.rs lines 478-486). -/
def DLLStorageClass.from_llvm (dllsc : LLVMDLLStorageClass) : DLLStorageClass :=
  match dllsc with
  | LLVMDLLStorageClass.LLVMDefaultStorageClass => DLLStorageClass.Default
  | LLVMDLLStorageClass.LLVMDLLImportStorageClass => DLLStorageClass.Import
  | LLVMDLLStorageClass.LLVMDLLExportStorageClass => DLLStorageClass.Export

/-- `ThreadLocalMode::from_llvm` (src/module.rs lines 488-498). -/
def ThreadLocalMode.from_llvm (tlm : LLVMThreadLocalMode) : ThreadLocalMode :=
  match tlm with
  | LLVMThreadLocalMode.LLVMNotThreadLocal => ThreadLocalMode.NotThreadLocal
  | LLVMThreadLocalMode.LLVMGeneralDynamicTLSModel => ThreadLocalMode.GeneralDynamic
  | LLVMThreadLocalMode.LLVMLocalDynamicTLSModel => ThreadLocalMode.LocalDynamic
  | LLVMThreadLocalMode.LLVMInitialExecTLSModel => ThreadLocalMode.InitialExec
  | LLVMThreadLocalMode.LLVMLocalExecTLSModel => ThreadLocalMode.LocalExec

/-- `SelectionKind::from_llvm` (src/module.rs lines 509-518). -/
def SelectionKind.from_llvm (sk : LLVMComdatSelectionKind) : SelectionKind :=
  match sk with
  | LLVMComdatSelectionKind.LLVMAnyComdatSelectionKind => SelectionKind.Any
  | LLVMComdatSelectionKind.LLVMExactMatchComdatSelectionKind => SelectionKind.ExactMatch
  | LLVMComdatSelectionKind.LLVMLargestComdatSelectionKind => SelectionKind.Largest
  | LLVMComdatSelectionKind.LLVMNoDuplicatesComdatSelectionKind => SelectionKind.NoDuplicates
  | LLVMComdatSelectionKind.LLVMSameSizeComdatSelectionKind => SelectionKind.SameSize

/-- `Comdat::from_llvm_ref` (src/module.rs lines 500-507): the name getter is
absent from the LLVM C API, so the code stores a fixed placeholder string. -/
def Comdat.from_llvm_ref (comdat : LLVMComdatRef) : Comdat :=
  { name := "error: not yet implemented: Comdat.name",
    selection_kind := SelectionKind.from_llvm comdat.selection_kind }

/-! ## Types and the Type Memoizer (modelled from the spec, §4.3) -/

/-- Foreign-side type graph node (accessor `LLVMTypeOf`).  A named struct is
a single object: either opaque (declared with no definition) or defined with
a field list; anonymous structs carry their fields inline. -/
inductive LLVMType where
  | void
  | integer (bits : Nat)
  | pointer (pointee : LLVMType) (addr_space : Nat)
  | namedOpaque (name : String)
  | namedStruct (name : String) (fields : List LLVMType)
  | anonStruct (fields : List LLVMType)
deriving Repr

/-- Decoded type (crate file types.rs, not in the reviewed source).
`NamedStructType` holds only the name; the shared slot it refers to lives
in the module-level `TyNameMap`.  Named `T` because `Type` is a Lean
universe. -/
inductive T where
  | VoidType
  | IntegerType (bits : Nat)
  | PointerType (pointee : T) (addr_space : AddrSpace)
  | StructType (element_types : List T)
  | NamedStructType (name : String)
deriving Repr

/-- `TyNameMap` (types.rs, not in the reviewed source): the named-type slot
table; `none` is an unpopulated (opaque or in-construction) slot. -/
abbrev TyNameMap := List (String × Option T)

/-- First-match slot lookup in a `TyNameMap`. -/
def slotLookup : TyNameMap → String → Option (Option T)
  | [], _ => none
  | (n, v) :: rest, x => if x = n then some v else slotLookup rest x

/-- Replace the value of an existing slot (the populate step of §4.3). -/
def slotSet : TyNameMap → String → Option T → TyNameMap
  | [], _, _ => []
  | (n, v) :: rest, x, w => if x = n then (n, w) :: rest else (n, v) :: slotSet rest x w

mutual
/-- Modelled from the spec: `Type::from_llvm_ref` (types.rs, not in the
reviewed source), the Type Memoizer of §4.3.  If the name already has a
slot, return immediately (even if the slot is still unpopulated); otherwise
create an empty slot first, construct the body, then populate the slot.  An
opaque declaration leaves its slot permanently unpopulated.  Anonymous
aggregates bypass the memoizer. -/
def T.from_llvm_ref : LLVMType → TyNameMap → T × TyNameMap
  | LLVMType.void, m => (T.VoidType, m)
  | LLVMType.integer b, m => (T.IntegerType b, m)
  | LLVMType.pointer p a, m =>
    let r := T.from_llvm_ref p m
    (T.PointerType r.1 a, r.2)
  | LLVMType.namedOpaque n, m =>
    if (slotLookup m n).isSome then (T.NamedStructType n, m)
    else (T.NamedStructType n, m ++ [(n, none)])
  | LLVMType.namedStruct n fs, m =>
    if (slotLookup m n).isSome then (T.NamedStructType n, m)
    else
      let r := T.from_llvm_list fs (m ++ [(n, none)])
      (T.NamedStructType n, slotSet r.2 n (some (T.StructType r.1)))
  | LLVMType.anonStruct fs, m =>
    let r := T.from_llvm_list fs m
    (T.StructType r.1, r.2)

/-- Left-to-right decode of a field list, threading the slot table. -/
def T.from_llvm_list : List LLVMType → TyNameMap → List T × TyNameMap
  | [], m => ([], m)
  | t :: ts, m =>
    let r := T.from_llvm_ref t m
    let rs := T.from_llvm_list ts r.2
    (r.1 :: rs.1, rs.2)
end

/-! ## Constants (modelled from the spec, §4.5) -/

/-- Foreign-side constant expression tree; a `globalRef` leaf names another
global object by its source identity (`LLVMValueRef`, modelled as `Nat`). -/
inductive LLVMConstant where
  | int (bits : Nat) (value : Nat)
  | globalRef (ref : Nat)
  | array (elements : List LLVMConstant)
deriving Repr

/-- Decoded constant (crate file constant.rs, not in the reviewed source):
a global-object reference is stored as the referenced object's `Name`,
never as an embedded copy. -/
inductive Constant where
  | Int (bits : Nat) (value : Nat)
  | GlobalReference (name : Name)
  | Array (elements : List Constant)
deriving Repr

/-- `GlobalNameMap` (constant.rs, not in the reviewed source): the pass-1
source-identity → Name table. -/
abbrev GlobalNameMap := List (Nat × Name)

/-- First-match lookup in a `GlobalNameMap` (`HashMap::get` keyed by
pointer identity; source identities are distinct in a real graph). -/
def lookupName : GlobalNameMap → Nat → Option Name
  | [], _ => none
  | (r, nm) :: rest, x => if x = r then some nm else lookupName rest x

/-- A Rust panic: an unreported abrupt termination of the whole process,
carrying the panic message. -/
inductive Panic where
  | panic (msg : String)
deriving DecidableEq, Repr

mutual
/-- Modelled from the spec: `Constant::from_llvm_ref` (constant.rs, not in
the reviewed source), §4.5: recursively decodes nested constant
expressions, "resolving any leaf that names another global object via the
pass-1 Identifier table rather than recursing into that object's full
decode".  A leaf absent from the table is a panic (§7c lookup failure). -/
def Constant.from_llvm_ref : LLVMConstant → GlobalNameMap → TyNameMap →
    Except Panic (Constant × TyNameMap)
  | LLVMConstant.int b v, _, m => Except.ok (Constant.Int b v, m)
  | LLVMConstant.globalRef r, gnmap, m =>
    match lookupName gnmap r with
    | some nm => Except.ok (Constant.GlobalReference nm, m)
    | none => Except.error (Panic.panic "Failed to find global name")
  | LLVMConstant.array es, gnmap, m =>
    match Constant.from_llvm_vec es gnmap m with
    | Except.ok (cs, m1) => Except.ok (Constant.Array cs, m1)
    | Except.error e => Except.error e

/-- Left-to-right decode of constant operands, threading the slot table. -/
def Constant.from_llvm_vec : List LLVMConstant → GlobalNameMap → TyNameMap →
    Except Panic (List Constant × TyNameMap)
  | [], _, m => Except.ok ([], m)
  | c :: cs, gnmap, m =>
    match Constant.from_llvm_ref c gnmap m with
    | Except.ok (c1, m1) =>
      match Constant.from_llvm_vec cs gnmap m1 with
      | Except.ok (cs1, m2) => Except.ok (c1 :: cs1, m2)
      | Except.error e => Except.error e
    | Except.error e => Except.error e
end

/-! ## Metadata (modelled from the spec, §4.4; crate file metadata.rs) -/

/-- `MetadataNodeID` (metadata.rs, not in the reviewed source): a stable
integer ID assigned to a metadata node. -/
abbrev MetadataNodeID := Nat

/-- Modelled from the spec: a decoded metadata node (metadata.rs, not in
the reviewed source); its operands are other nodes' IDs, never copies. -/
structure MetadataNode where
  operands : List MetadataNodeID
deriving DecidableEq, Repr

/-- `MetadataNodeMap` (metadata.rs): the ID-indexed node table. -/
abbrev MetadataNodeMap := List (MetadataNodeID × MetadataNode)

/-- `LLVMToNodeIDMap` (metadata.rs): source identity → assigned NodeID. -/
abbrev LLVMToNodeIDMap := List (Nat × MetadataNodeID)

/-- First-match lookup in an `LLVMToNodeIDMap` (`HashMap::get`). -/
def lookupNodeID : LLVMToNodeIDMap → Nat → Option MetadataNodeID
  | [], _ => none
  | (r, i) :: rest, x => if x = r then some i else lookupNodeID rest x

/-! ## Foreign-side module graph (accessors of from_llvm.rs, modelled from
the spec §6: "get name, get type, get linkage, ..., enumerate
defined/declared functions, enumerate globals, enumerate aliases,
enumerate named-metadata entries").  Every node carries its source
identity `ref` (the `LLVMValueRef` pointer, modelled as `Nat`). -/

/-- A foreign function node.  Pass 1 consults only its identity and its
textual name (`get_value_name`; `""` means unnamed). -/
structure LLVMFunction where
  ref : Nat
  name : String
deriving DecidableEq, Repr

/-- A foreign global-variable node with the accessors used by
`GlobalVariable::from_llvm_ref` (src/module.rs lines 343-385). -/
structure LLVMGlobal where
  ref : Nat
  name : String
  ty : LLVMType
  linkage : LLVMLinkage
  visibility : LLVMVisibility
  is_constant : Bool
  dll_storage_class : LLVMDLLStorageClass
  thread_local_mode : LLVMThreadLocalMode
  unnamed_addr : LLVMUnnamedAddr
  initializer : Option LLVMConstant
  «section» : Option String
  comdat : Option LLVMComdatRef
  alignment : Nat
deriving Repr

/-- A foreign global-alias node with the accessors used by
`GlobalAlias::from_llvm_ref` (src/module.rs lines 388-411). -/
structure LLVMAlias where
  ref : Nat
  name : String
  ty : LLVMType
  aliasee : LLVMConstant
  linkage : LLVMLinkage
  visibility : LLVMVisibility
  dll_storage_class : LLVMDLLStorageClass
  thread_local_mode : LLVMThreadLocalMode
  unnamed_addr : LLVMUnnamedAddr
deriving Repr

/-- A foreign named-metadata entry: its name and the source identities of
the metadata nodes it lists (`LLVMGetNamedMetadataOperands`). -/
structure LLVMNamedMD where
  name : String
  operands : List Nat
deriving DecidableEq, Repr

/-- The foreign module graph handed to `Module::from_llvm_ref`; each list
is one of the deterministic enumerations of §3, in source order. -/
structure LLVMModule where
  module_identifier : String
  source_file_name : String
  data_layout_str : String
  target : Option String
  module_inline_asm : String
  defined_functions : List LLVMFunction
  declared_functions : List LLVMFunction
  globals : List LLVMGlobal
  global_aliases : List LLVMAlias
  named_metadatas : List LLVMNamedMD
deriving Repr

/-! ## Decoded entities -/

/-- Modelled from the spec: a decoded defined function (crate file
function.rs, not in the reviewed source).  The crate names functions with
`String`s, not `Name`s (src/module.rs lines 50-53); the body and other
fields are omitted, as no reviewed code or claim inspects them. -/
structure Function where
  name : String
deriving DecidableEq, Repr

/-- Modelled from the spec: `Function::from_llvm_ref` (function.rs, not in
the reviewed source).  Called in pass 2 as
`Function::from_llvm_ref(f, &gnmap, &mut tynamemap)` (src/module.rs line
325) — note it does not receive the global counter. -/
def Function.from_llvm_ref (f : LLVMFunction) (_gnmap : GlobalNameMap)
    (tnmap : TyNameMap) : Function × TyNameMap :=
  ({ name := f.name }, tnmap)

/-- `GlobalVariable` (src/module.rs lines 106-122). -/
structure GlobalVariable where
  name : Name
  linkage : Linkage
  visibility : Visibility
  is_constant : Bool
  ty : T
  addr_space : AddrSpace
  dll_storage_class : DLLStorageClass
  thread_local_mode : ThreadLocalMode
  unnamed_addr : Option UnnamedAddr
  initializer : Option Constant
  «section» : Option String
  comdat : Option Comdat
  alignment : Nat
deriving Repr

/-- `GlobalAlias` (src/module.rs lines 131-142). -/
structure GlobalAlias where
  name : Name
  aliasee : Constant
  linkage : Linkage
  visibility : Visibility
  ty : T
  addr_space : AddrSpace
  dll_storage_class : DLLStorageClass
  thread_local_mode : ThreadLocalMode
  unnamed_addr : Option UnnamedAddr
deriving Repr

/-- `NamedMetadata` (src/module.rs lines 215-219). -/
structure NamedMetadata where
  name : String
  node_ids : List MetadataNodeID
deriving DecidableEq, Repr

/-- `Module` (src/module.rs lines 12-47).  `named_struct_types` models the
source's `HashMap<String, Option<Arc<RwLock<Type>>>>`; a `none` value
indicates an opaque type. -/
structure Module where
  name : String
  source_file_name : String
  data_layout : String
  target_triple : Option String
  functions : List Function
  global_vars : List GlobalVariable
  global_aliases : List GlobalAlias
  named_struct_types : TyNameMap
  inline_assembly : String
  metadata_nodes : MetadataNodeMap
  named_metadatas : List NamedMetadata
deriving Repr

/-- `Module::get_func_by_name` (src/module.rs lines 50-54):
`self.functions.iter().find(|func| func.name == name)`. -/
def Module.get_func_by_name (m : Module) (name : String) : Option Function :=
  m.functions.find? (fun func => func.name == name)

/-! ## Entity decoders (src/module.rs, from_llvm half) -/

/-- `GlobalVariable::from_llvm_ref` (src/module.rs lines 343-385).  The
Rust struct literal evaluates `name` (advancing the counter), panics at
`addr_space` when the resolved type is not a pointer type (line 360), and
only then decodes the initializer (which may itself panic on a dangling
global reference).  The `&mut` counter and type table become threaded
state; panics surface on the `Except` error channel. -/
def GlobalVariable.from_llvm_ref (global : LLVMGlobal) (ctr : Nat)
    (gnmap : GlobalNameMap) (tnmap : TyNameMap) :
    Except Panic (GlobalVariable × Nat × TyNameMap) :=
  let tr := T.from_llvm_ref global.ty tnmap
  let nr := Name.name_or_num global.name ctr
  match tr.1 with
  | T.PointerType _ addr_space =>
    match global.initializer with
    | none =>
      Except.ok
        ({ name := nr.1,
           linkage := Linkage.from_llvm global.linkage,
           visibility := Visibility.from_llvm global.visibility,
           is_constant := global.is_constant,
           ty := tr.1,
           addr_space := addr_space,
           dll_storage_class := DLLStorageClass.from_llvm global.dll_storage_class,
           thread_local_mode := ThreadLocalMode.from_llvm global.thread_local_mode,
           unnamed_addr := UnnamedAddr.from_llvm global.unnamed_addr,
           initializer := none,
           «section» := global.«section»,
           comdat := global.comdat.map Comdat.from_llvm_ref,
           alignment := global.alignment }, nr.2, tr.2)
    | some it =>
      match Constant.from_llvm_ref it gnmap tr.2 with
      | Except.error e => Except.error e
      | Except.ok (c, tnmap2) =>
        Except.ok
          ({ name := nr.1,
             linkage := Linkage.from_llvm global.linkage,
             visibility := Visibility.from_llvm global.visibility,
             is_constant := global.is_constant,
             ty := tr.1,
             addr_space := addr_space,
             dll_storage_class := DLLStorageClass.from_llvm global.dll_storage_class,
             thread_local_mode := ThreadLocalMode.from_llvm global.thread_local_mode,
             unnamed_addr := UnnamedAddr.from_llvm global.unnamed_addr,
             initializer := some c,
             «section» := global.«section»,
             comdat := global.comdat.map Comdat.from_llvm_ref,
             alignment := global.alignment }, nr.2, tnmap2)
  | _ => Except.error (Panic.panic "GlobalVariable has a non-pointer type")

/-- `GlobalAlias::from_llvm_ref` (src/module.rs lines 388-411).  The Rust
struct literal decodes the `aliasee` (which may panic) before the
`addr_space` match panics on a non-pointer type (line 404). -/
def GlobalAlias.from_llvm_ref (alia : LLVMAlias) (ctr : Nat)
    (gnmap : GlobalNameMap) (tnmap : TyNameMap) :
    Except Panic (GlobalAlias × Nat × TyNameMap) :=
  let tr := T.from_llvm_ref alia.ty tnmap
  let nr := Name.name_or_num alia.name ctr
  match Constant.from_llvm_ref alia.aliasee gnmap tr.2 with
  | Except.error e => Except.error e
  | Except.ok (aliasee, tnmap2) =>
    match tr.1 with
    | T.PointerType _ addr_space =>
      Except.ok
        ({ name := nr.1,
           aliasee := aliasee,
           linkage := Linkage.from_llvm alia.linkage,
           visibility := Visibility.from_llvm alia.visibility,
           ty := tr.1,
           addr_space := addr_space,
           dll_storage_class := DLLStorageClass.from_llvm alia.dll_storage_class,
           thread_local_mode := ThreadLocalMode.from_llvm alia.thread_local_mode,
           unnamed_addr := UnnamedAddr.from_llvm alia.unnamed_addr }, nr.2, tnmap2)
    | _ => Except.error (Panic.panic "GlobalAlias has a non-pointer type")

/-- `NamedMetadata::from_llvm_ref` (src/module.rs lines 413-432): maps each
listed node through the `LLVMToNodeIDMap`; a node absent from the map hits
`.expect("Failed to find metadata node in map")` — a panic. -/
def NamedMetadata.from_llvm_ref (nm : LLVMNamedMD) (llmap : LLVMToNodeIDMap) :
    Except Panic NamedMetadata :=
  match nm.operands.mapM (fun node =>
      match lookupNodeID llmap node with
      | some i => Except.ok i
      | none => Except.error (Panic.panic "Failed to find metadata node in map")) with
  | Except.ok ids => Except.ok { name := nm.name, node_ids := ids }
  | Except.error e => Except.error e

/-! ## Module decoder orchestration (src/module.rs lines 290-341) -/

/-- The pass-1 enumeration (src/module.rs lines 302-305):
`get_defined_functions(module).chain(get_declared_functions(module))
.chain(get_globals(module)).chain(get_global_aliases(module))`, each node
reduced to its source identity and textual name. -/
def LLVMModule.pass1_nodes (m : LLVMModule) : List (Nat × String) :=
  (m.defined_functions.map fun f => (f.ref, f.name))
    ++ (m.declared_functions.map fun f => (f.ref, f.name))
    ++ (m.globals.map fun g => (g.ref, g.name))
    ++ (m.global_aliases.map fun a => (a.ref, a.name))

/-- Pass 1 (src/module.rs lines 302-312): map each enumerated node to
`Name::name_or_num(get_value_name(g), &mut global_ctr)`, threading the
shared counter, and collect the identity → `Name` table. -/
def allocNames : List (Nat × String) → Nat → GlobalNameMap × Nat
  | [], ctr => ([], ctr)
  | (r, s) :: rest, ctr =>
    let nr := Name.name_or_num s ctr
    let rec' := allocNames rest nr.2
    ((r, nr.1) :: rec'.1, rec'.2)

/-- The pass-1 `gnmap: GlobalNameMap` of src/module.rs line 302, built with
the counter starting at 0 (line 293). -/
def LLVMModule.gnmap (m : LLVMModule) : GlobalNameMap :=
  (allocNames m.pass1_nodes 0).1

/-- Pass-2 decode of the defined functions (src/module.rs lines 324-326),
threading the type table.  `Function::from_llvm_ref` receives no counter. -/
def decodeFunctions : List LLVMFunction → GlobalNameMap → TyNameMap →
    List Function × TyNameMap
  | [], _, m => ([], m)
  | f :: fs, gnmap, m =>
    let r := Function.from_llvm_ref f gnmap m
    let rs := decodeFunctions fs gnmap r.2
    (r.1 :: rs.1, rs.2)

/-- Pass-2 decode of the global variables (src/module.rs lines 327-329),
threading the reset counter and the type table; a panic aborts the fold. -/
def decodeGlobals : List LLVMGlobal → Nat → GlobalNameMap → TyNameMap →
    Except Panic (List GlobalVariable × Nat × TyNameMap)
  | [], ctr, _, m => Except.ok ([], ctr, m)
  | g :: gs, ctr, gnmap, m =>
    match GlobalVariable.from_llvm_ref g ctr gnmap m with
    | Except.error e => Except.error e
    | Except.ok (gv, ctr1, m1) =>
      match decodeGlobals gs ctr1 gnmap m1 with
      | Except.error e => Except.error e
      | Except.ok (gvs, ctr2, m2) => Except.ok (gv :: gvs, ctr2, m2)

/-- Pass-2 decode of the global aliases (src/module.rs lines 330-332),
continuing with the counter value left by the global variables. -/
def decodeAliases : List LLVMAlias → Nat → GlobalNameMap → TyNameMap →
    Except Panic (List GlobalAlias × Nat × TyNameMap)
  | [], ctr, _, m => Except.ok ([], ctr, m)
  | a :: as_, ctr, gnmap, m =>
    match GlobalAlias.from_llvm_ref a ctr gnmap m with
    | Except.error e => Except.error e
    | Except.ok (ga, ctr1, m1) =>
      match decodeAliases as_ ctr1 gnmap m1 with
      | Except.error e => Except.error e
      | Except.ok (gas, ctr2, m2) => Except.ok (ga :: gas, ctr2, m2)

/-- Decode of the named-metadata entries (src/module.rs line 337), each
resolved through the (never-populated) `llmap`. -/
def decodeNamedMDs : List LLVMNamedMD → LLVMToNodeIDMap →
    Except Panic (List NamedMetadata)
  | [], _ => Except.ok []
  | nm :: nms, llmap =>
    match NamedMetadata.from_llvm_ref nm llmap with
    | Except.error e => Except.error e
    | Except.ok d =>
      match decodeNamedMDs nms llmap with
      | Except.error e => Except.error e
      | Except.ok ds => Except.ok (d :: ds)

/-- `Module::from_llvm_ref` (src/module.rs lines 291-340).  Pass 1 builds
`gnmap` with `global_ctr` running over defined functions, declared
functions, globals and aliases; the counter is then reset to 0 (line 313,
"the second pass should number everything exactly the same though") and
pass 2 decodes defined functions (no counter), then global variables and
global aliases (sharing the reset counter), then the named metadata
against the freshly created, still-empty `llmap`/`mnmap` (lines 316-317).
Any panic raised by an entity decoder aborts the whole decode. -/
def Module.from_llvm_ref (module : LLVMModule) : Except Panic Module :=
  let gnmap := module.gnmap
  -- global_ctr = 0 again (line 313)
  let llmap : LLVMToNodeIDMap := []
  let mnmap : MetadataNodeMap := []
  let fr := decodeFunctions module.defined_functions gnmap []
  match decodeGlobals module.globals 0 gnmap fr.2 with
  | Except.error e => Except.error e
  | Except.ok (global_vars, ctr1, tnmap2) =>
    match decodeAliases module.global_aliases ctr1 gnmap tnmap2 with
    | Except.error e => Except.error e
    | Except.ok (global_aliases, _, tnmap3) =>
      match decodeNamedMDs module.named_metadatas llmap with
      | Except.error e => Except.error e
      | Except.ok named_metadatas =>
        Except.ok
          { name := module.module_identifier,
            source_file_name := module.source_file_name,
            data_layout := module.data_layout_str,
            target_triple := module.target,
            functions := fr.1,
            global_vars := global_vars,
            global_aliases := global_aliases,
            named_struct_types := tnmap3,
            inline_assembly := module.module_inline_asm,
            metadata_nodes := mnmap,
            named_metadatas := named_metadatas }

/-! ## Top-level entry point (src/module.rs lines 56-102) -/

/-- A file-system path as `from_bc_path` sees it: `valid_unicode` is
whether `path.to_str()` succeeds, `no_interior_nul` whether
`CString::new` succeeds, `repr` the path string handed to the loader. -/
structure BcPath where
  valid_unicode : Bool
  no_interior_nul : Bool
  repr : String

/-- Modelled from the spec: the external file loader
(`LLVMCreateMemoryBufferWithContentsOfFile`): either the file's bytes or a
descriptive error string (file not found, unreadable). -/
structure FileSystem where
  read : String → Except String (List Nat)

/-- Modelled from the spec: the external deserializer
(`LLVMParseBitcodeInContext2`): `none` when the bytes are not a valid
serialized module. -/
structure BitcodeParser where
  parse : List Nat → Option LLVMModule

/-- `Module::from_bc_path` (src/module.rs lines 57-102).  A
non-representable path hits `.expect("Did not find a valid Unicode path
string")` / `.expect("Failed to convert to CString")` — panics, on the
outer `Except` channel.  A loader failure returns the loader's error
string; a deserializer failure returns `"Failed to parse bitcode"`; both
as `Err` values (the inner `Except`), before any decode begins.  On
success the decoder runs (and its own panics propagate). -/
def Module.from_bc_path (fs : FileSystem) (parser : BitcodeParser)
    (path : BcPath) : Except Panic (Except String Module) :=
  if ¬ path.valid_unicode then
    Except.error (Panic.panic "Did not find a valid Unicode path string")
  else if ¬ path.no_interior_nul then
    Except.error (Panic.panic "Failed to convert to CString")
  else
    match fs.read path.repr with
    | Except.error err_string => Except.ok (Except.error err_string)
    | Except.ok memory_buffer =>
      match parser.parse memory_buffer with
      | none => Except.ok (Except.error "Failed to parse bitcode")
      | some module =>
        match Module.from_llvm_ref module with
        | Except.error e => Except.error e
        | Except.ok md => Except.ok (Except.ok md)

/-! ## Concrete source graphs used as test inputs -/

/-- A global-variable node with default storage attributes. -/
def sampleGlobal (r : Nat) (nm : String) (t : LLVMType)
    (init : Option LLVMConstant) : LLVMGlobal :=
  { ref := r, name := nm, ty := t,
    linkage := LLVMLinkage.LLVMExternalLinkage,
    visibility := LLVMVisibility.LLVMDefaultVisibility,
    is_constant := false,
    dll_storage_class := LLVMDLLStorageClass.LLVMDefaultStorageClass,
    thread_local_mode := LLVMThreadLocalMode.LLVMNotThreadLocal,
    unnamed_addr := LLVMUnnamedAddr.LLVMNoUnnamedAddr,
    initializer := init, «section» := none, comdat := none, alignment := 4 }

/-- A source module with the given entity lists and fixed header fields. -/
def sampleModule (dfs : List LLVMFunction) (gs : List LLVMGlobal)
    (als : List LLVMAlias) (nms : List LLVMNamedMD) : LLVMModule :=
  { module_identifier := "m", source_file_name := "m.c", data_layout_str := "",
    target := none, module_inline_asm := "", defined_functions := dfs,
    declared_functions := [], globals := gs, global_aliases := als,
    named_metadatas := nms }

/-- An `i8*` type in address space 0. -/
def ptrTy : LLVMType := LLVMType.pointer (LLVMType.integer 8) 0

/-- One unnamed defined function followed by one unnamed global variable:
pass 1 numbers the function `%0` and the global `%1`. -/
def moduleUnnamedFn : LLVMModule :=
  sampleModule [{ ref := 0, name := "" }] [sampleGlobal 1 "" ptrTy none] [] []

/-- A module whose only global variable has the non-pointer type `i32`. -/
def moduleNonPtr : LLVMModule :=
  sampleModule [] [sampleGlobal 5 "x" (LLVMType.integer 32) none] [] []

/-- A module with one named-metadata entry listing two metadata nodes. -/
def moduleNamedMD : LLVMModule :=
  sampleModule [] [] [] [{ name := "md", operands := [100, 101] }]

/-- A module with no entities at all. -/
def moduleEmpty : LLVMModule := sampleModule [] [] [] []

/-- The decoded form of `moduleEmpty`. -/
def moduleEmptyDecoded : Module :=
  { name := "m", source_file_name := "m.c", data_layout := "",
    target_triple := none, functions := [], global_vars := [],
    global_aliases := [], named_struct_types := [], inline_assembly := "",
    metadata_nodes := [], named_metadatas := [] }

/-- A named global variable followed by an unnamed one. -/
def moduleTwoGlobals : LLVMModule :=
  sampleModule [] [sampleGlobal 1 "x" ptrTy none, sampleGlobal 2 "" ptrTy none] [] []

/-- Two globals `A` and `B` whose initializers reference each other. -/
def moduleCircular : LLVMModule :=
  sampleModule []
    [sampleGlobal 1 "A" ptrTy (some (LLVMConstant.globalRef 2)),
     sampleGlobal 2 "B" ptrTy (some (LLVMConstant.globalRef 1))] [] []

/-- A module whose global's type mentions the opaque named type `opq`. -/
def moduleOpaque : LLVMModule :=
  sampleModule [] [sampleGlobal 1 "g" (LLVMType.pointer (LLVMType.namedOpaque "opq") 0) none] [] []

/-- A module whose global carries a comdat. -/
def moduleComdat : LLVMModule :=
  sampleModule []
    [{ sampleGlobal 1 "g" ptrTy none with
       comdat := some { selection_kind := LLVMComdatSelectionKind.LLVMLargestComdatSelectionKind } }]
    [] []

/-- A file system on which every read succeeds with an empty buffer. -/
def sampleFs : FileSystem := { read := fun _ => Except.ok [] }

/-- A file system on which every read fails. -/
def sampleFsErr : FileSystem := { read := fun _ => Except.error "No such file or directory" }

/-- A deserializer that always yields the given module graph. -/
def sampleParser (m : LLVMModule) : BitcodeParser := { parse := fun _ => some m }

/-- A deserializer that always rejects the byte stream. -/
def sampleParserErr : BitcodeParser := { parse := fun _ => none }

/-- A path that is not representable as a Unicode string. -/
def samplePathBad : BcPath :=
  { valid_unicode := false, no_interior_nul := true, repr := "p" }

/-- A well-formed path. -/
def samplePathOk : BcPath :=
  { valid_unicode := true, no_interior_nul := true, repr := "p" }

/-- A decoded module holding two defined functions, `g` then `f`. -/
def sampleDecodedModule : Module :=
  { moduleEmptyDecoded with functions := [{ name := "g" }, { name := "f" }] }


/-- A global-variable node carrying a comdat. -/
def comdatGlobal : LLVMGlobal :=
  { sampleGlobal 1 "g" ptrTy none with
    comdat := some { selection_kind := LLVMComdatSelectionKind.LLVMLargestComdatSelectionKind } }

/-- The decoded form of `comdatGlobal` (counter 0, empty tables). -/
def comdatGlobalDecoded : GlobalVariable :=
  { name := Name.name "g", linkage := Linkage.External,
    visibility := Visibility.Default, is_constant := false,
    ty := T.PointerType (T.IntegerType 8) 0, addr_space := 0,
    dll_storage_class := DLLStorageClass.Default,
    thread_local_mode := ThreadLocalMode.NotThreadLocal,
    unnamed_addr := none, initializer := none, «section» := none,
    comdat := some { name := "error: not yet implemented: Comdat.name",
                     selection_kind := SelectionKind.Largest },
    alignment := 4 }


/-! ## Helper lemmas -/

theorem name_or_num_fst_empty (c : Nat) :
    (Name.name_or_num "" c) = (Name.number c, c + 1) := by
  simp [Name.name_or_num]

theorem allocNames_cons (r : Nat) (s : String) (rest : List (Nat × String)) (c : Nat) :
    allocNames ((r, s) :: rest) c =
      (((r, (Name.name_or_num s c).1) :: (allocNames rest (Name.name_or_num s c).2).1),
        (allocNames rest (Name.name_or_num s c).2).2) := by
  simp [allocNames]

theorem allocNames_fst_map (l : List (Nat × String)) (c : Nat) :
    (allocNames l c).1.map Prod.fst = l.map Prod.fst := by
  induction l generalizing c with
  | nil => simp [allocNames]
  | cons p rest ih =>
    obtain ⟨r, s⟩ := p
    simp [allocNames, ih]

theorem allocNames_append (l1 l2 : List (Nat × String)) (c : Nat) :
    allocNames (l1 ++ l2) c =
      ((allocNames l1 c).1 ++ (allocNames l2 (allocNames l1 c).2).1,
        (allocNames l2 (allocNames l1 c).2).2) := by
  induction l1 generalizing c with
  | nil => simp [allocNames]
  | cons p rest ih =>
    obtain ⟨r, s⟩ := p
    simp [allocNames, ih]

theorem allocNames_mem (l : List (Nat × String)) (c : Nat) (nm : Name)
    (h : nm ∈ (allocNames l c).1.map Prod.snd) :
    (∃ s, s ∈ l.map Prod.snd ∧ s ≠ "" ∧ nm = Name.name s) ∨
      (∃ k, c ≤ k ∧ nm = Name.number k) := by
  induction l generalizing c with
  | nil => simp [allocNames] at h
  | cons p rest ih =>
    obtain ⟨r, s⟩ := p
    rw [allocNames_cons] at h
    simp only [List.map_cons, List.mem_cons] at h
    rcases h with h | h
    · by_cases hs : s = ""
      · subst hs
        rw [name_or_num_fst_empty] at h
        right
        exact ⟨c, le_refl c, h⟩
      · left
        refine ⟨s, by simp, hs, ?_⟩
        simpa [Name.name_or_num, hs] using h
    · by_cases hs : s = ""
      · subst hs
        rw [name_or_num_fst_empty] at h
        rcases ih (c + 1) h with ⟨t, ht, hne, heq⟩ | ⟨k, hk, heq⟩
        · exact Or.inl ⟨t, by simp [ht], hne, heq⟩
        · exact Or.inr ⟨k, le_trans (Nat.le_succ c) hk, heq⟩
      · have : (Name.name_or_num s c).2 = c := by simp [Name.name_or_num, hs]
        rw [this] at h
        rcases ih c h with ⟨t, ht, hne, heq⟩ | ⟨k, hk, heq⟩
        · exact Or.inl ⟨t, by simp [ht], hne, heq⟩
        · exact Or.inr ⟨k, hk, heq⟩

theorem allocNames_pairwise (l : List (Nat × String)) (c : Nat)
    (h : (l.map Prod.snd).Pairwise (fun s t => s ≠ "" → t ≠ "" → s ≠ t)) :
    ((allocNames l c).1.map Prod.snd).Pairwise (· ≠ ·) := by
  induction l generalizing c with
  | nil => simp [allocNames]
  | cons p rest ih =>
    obtain ⟨r, s⟩ := p
    simp only [List.map_cons, List.pairwise_cons] at h
    rw [allocNames_cons]
    simp only [List.map_cons, List.pairwise_cons]
    refine ⟨?_, ih _ h.2⟩
    intro nm hnm
    rcases allocNames_mem _ _ _ hnm with ⟨t, ht, hne, heq⟩ | ⟨k, hk, heq⟩
    · by_cases hs : s = ""
      · subst hs
        rw [name_or_num_fst_empty]
        simp [heq]
      · have hfst : (Name.name_or_num s c).1 = Name.name s := by
          simp [Name.name_or_num, hs]
        rw [hfst, heq]
        have := h.1 t ht hs hne
        simp [this]
    · subst heq
      by_cases hs : s = ""
      · subst hs
        rw [name_or_num_fst_empty] at hk ⊢
        simp only at hk ⊢
        have : c ≠ k := by omega
        simp [this]
      · have hfst : (Name.name_or_num s c).1 = Name.name s := by
          simp [Name.name_or_num, hs]
        rw [hfst]
        simp

theorem lookupName_append (m1 m2 : GlobalNameMap) (x : Nat) :
    lookupName (m1 ++ m2) x =
      match lookupName m1 x with
      | some nm => some nm
      | none => lookupName m2 x := by
  induction m1 with
  | nil => simp [lookupName]
  | cons p rest ih =>
    obtain ⟨r, nm⟩ := p
    by_cases hx : x = r
    · simp [lookupName, hx]
    · simp [lookupName, hx, ih]

theorem lookupName_eq_none (m : GlobalNameMap) (x : Nat)
    (h : x ∉ m.map Prod.fst) : lookupName m x = none := by
  induction m with
  | nil => simp [lookupName]
  | cons p rest ih =>
    obtain ⟨r, nm⟩ := p
    simp only [List.map_cons, List.mem_cons] at h
    push_neg at h
    simp [lookupName, h.1, ih h.2]

theorem decodeFunctions_snd (fs : List LLVMFunction) (gnmap : GlobalNameMap)
    (m : TyNameMap) : (decodeFunctions fs gnmap m).2 = m := by
  induction fs with
  | nil => simp [decodeFunctions]
  | cons f rest ih => simp [decodeFunctions, Function.from_llvm_ref, ih]

theorem decodeFunctions_names (fs : List LLVMFunction) (gnmap : GlobalNameMap)
    (m : TyNameMap) :
    (decodeFunctions fs gnmap m).1.map Function.name = fs.map LLVMFunction.name := by
  induction fs with
  | nil => simp [decodeFunctions]
  | cons f rest ih => simp [decodeFunctions, Function.from_llvm_ref, ih]

theorem globalVariable_ok_fields (g : LLVMGlobal) (ctr : Nat)
    (gnmap : GlobalNameMap) (tnmap : TyNameMap) (gv : GlobalVariable)
    (ctr' : Nat) (tnmap' : TyNameMap)
    (h : GlobalVariable.from_llvm_ref g ctr gnmap tnmap = Except.ok (gv, ctr', tnmap')) :
    gv.name = (Name.name_or_num g.name ctr).1 ∧
      ctr' = (Name.name_or_num g.name ctr).2 ∧
      gv.comdat = g.comdat.map Comdat.from_llvm_ref := by
  simp only [GlobalVariable.from_llvm_ref] at h
  cases htr : (T.from_llvm_ref g.ty tnmap).1 with
  | PointerType pt a =>
    rw [htr] at h
    cases hinit : g.initializer with
    | none =>
      rw [hinit] at h
      dsimp only at h
      simp only [Except.ok.injEq, Prod.mk.injEq] at h
      obtain ⟨h1, h2, h3⟩ := h
      subst h1
      subst h2
      simp
    | some it =>
      rw [hinit] at h
      dsimp only at h
      cases hc : Constant.from_llvm_ref it gnmap (T.from_llvm_ref g.ty tnmap).2 with
      | error e => rw [hc] at h; simp at h
      | ok p =>
        obtain ⟨c, t2⟩ := p
        rw [hc] at h
        dsimp only at h
        simp only [Except.ok.injEq, Prod.mk.injEq] at h
        obtain ⟨h1, h2, h3⟩ := h
        subst h1
        subst h2
        simp
  | VoidType => rw [htr] at h; simp at h
  | IntegerType b => rw [htr] at h; simp at h
  | StructType ts => rw [htr] at h; simp at h
  | NamedStructType n => rw [htr] at h; simp at h

theorem globalAlias_ok_fields (a : LLVMAlias) (ctr : Nat)
    (gnmap : GlobalNameMap) (tnmap : TyNameMap) (ga : GlobalAlias)
    (ctr' : Nat) (tnmap' : TyNameMap)
    (h : GlobalAlias.from_llvm_ref a ctr gnmap tnmap = Except.ok (ga, ctr', tnmap')) :
    ga.name = (Name.name_or_num a.name ctr).1 ∧
      ctr' = (Name.name_or_num a.name ctr).2 := by
  simp only [GlobalAlias.from_llvm_ref] at h
  cases hc : Constant.from_llvm_ref a.aliasee gnmap (T.from_llvm_ref a.ty tnmap).2 with
  | error e => rw [hc] at h; simp at h
  | ok p =>
    obtain ⟨c, t2⟩ := p
    rw [hc] at h
    dsimp only at h
    cases htr : (T.from_llvm_ref a.ty tnmap).1 with
    | PointerType pt asp =>
      rw [htr] at h
      dsimp only at h
      simp only [Except.ok.injEq, Prod.mk.injEq] at h
      obtain ⟨h1, h2, h3⟩ := h
      subst h1
      subst h2
      simp
    | VoidType => rw [htr] at h; simp at h
    | IntegerType b => rw [htr] at h; simp at h
    | StructType ts => rw [htr] at h; simp at h
    | NamedStructType n => rw [htr] at h; simp at h

theorem decodeGlobals_names (gs : List LLVMGlobal) (ctr : Nat)
    (gnmap : GlobalNameMap) (tnmap : TyNameMap) (vs : List GlobalVariable)
    (ctr' : Nat) (tnmap' : TyNameMap)
    (h : decodeGlobals gs ctr gnmap tnmap = Except.ok (vs, ctr', tnmap')) :
    vs.map GlobalVariable.name =
        (allocNames (gs.map fun g => (g.ref, g.name)) ctr).1.map Prod.snd ∧
      ctr' = (allocNames (gs.map fun g => (g.ref, g.name)) ctr).2 := by
  induction gs generalizing ctr tnmap vs with
  | nil =>
    unfold decodeGlobals at h
    cases h
    simp [allocNames]
  | cons g rest ih =>
    unfold decodeGlobals at h
    split at h
    · cases h
    · rename_i gv1 ctr1 m1 heq1
      split at h
      · cases h
      · rename_i gvs2 ctr2 m2 heq2
        cases h
        obtain ⟨hname, hctr, _⟩ := globalVariable_ok_fields _ _ _ _ _ _ _ heq1
        obtain ⟨hnames, hctr2⟩ := ih _ _ _ heq2
        subst hctr
        simp only [List.map_cons, allocNames_cons]
        constructor
        · simp [hname, hnames]
        · simp [hctr2]

theorem decodeAliases_names (als : List LLVMAlias) (ctr : Nat)
    (gnmap : GlobalNameMap) (tnmap : TyNameMap) (vs : List GlobalAlias)
    (ctr' : Nat) (tnmap' : TyNameMap)
    (h : decodeAliases als ctr gnmap tnmap = Except.ok (vs, ctr', tnmap')) :
    vs.map GlobalAlias.name =
        (allocNames (als.map fun a => (a.ref, a.name)) ctr).1.map Prod.snd ∧
      ctr' = (allocNames (als.map fun a => (a.ref, a.name)) ctr).2 := by
  induction als generalizing ctr tnmap vs with
  | nil =>
    unfold decodeAliases at h
    cases h
    simp [allocNames]
  | cons a rest ih =>
    unfold decodeAliases at h
    split at h
    · cases h
    · rename_i ga1 ctr1 m1 heq1
      split at h
      · cases h
      · rename_i gas2 ctr2 m2 heq2
        cases h
        obtain ⟨hname, hctr⟩ := globalAlias_ok_fields _ _ _ _ _ _ _ heq1
        obtain ⟨hnames, hctr2⟩ := ih _ _ _ heq2
        subst hctr
        simp only [List.map_cons, allocNames_cons]
        constructor
        · simp [hname, hnames]
        · simp [hctr2]

theorem module_ok_elim (m : LLVMModule) (md : Module)
    (h : Module.from_llvm_ref m = Except.ok md) :
    ∃ vs ctr1 t2 gas ctr2 t3 nmds,
      decodeGlobals m.globals 0 m.gnmap [] = Except.ok (vs, ctr1, t2) ∧
        decodeAliases m.global_aliases ctr1 m.gnmap t2 = Except.ok (gas, ctr2, t3) ∧
        decodeNamedMDs m.named_metadatas [] = Except.ok nmds ∧
        md = { name := m.module_identifier,
               source_file_name := m.source_file_name,
               data_layout := m.data_layout_str,
               target_triple := m.target,
               functions := (decodeFunctions m.defined_functions m.gnmap []).1,
               global_vars := vs,
               global_aliases := gas,
               named_struct_types := t3,
               inline_assembly := m.module_inline_asm,
               metadata_nodes := [],
               named_metadatas := nmds } := by
  simp only [Module.from_llvm_ref] at h
  rw [decodeFunctions_snd] at h
  cases hg : decodeGlobals m.globals 0 m.gnmap [] with
  | error e => rw [hg] at h; simp at h
  | ok p =>
    obtain ⟨vs, ctr1, t2⟩ := p
    rw [hg] at h
    dsimp only at h
    cases ha : decodeAliases m.global_aliases ctr1 m.gnmap t2 with
    | error e => rw [ha] at h; simp at h
    | ok q =>
      obtain ⟨gas, ctr2, t3⟩ := q
      rw [ha] at h
      dsimp only at h
      cases hn : decodeNamedMDs m.named_metadatas [] with
      | error e => rw [hn] at h; simp at h
      | ok nmds =>
        rw [hn] at h
        dsimp only at h
        simp only [Except.ok.injEq] at h
        exact ⟨vs, ctr1, t2, gas, ctr2, t3, nmds, rfl, ha, rfl, h.symm⟩

/-! ## Claims -/

/-- C1: the claim that every Identifier assigned to a global object in
pass 1 of `Module::from_llvm_ref` is identical to the Identifier the
corresponding node receives in pass 2 fails on the code: in
`moduleUnnamedFn` pass 1 numbers the unnamed defined function `%0` and the
unnamed global variable `%1`, but in pass 2 the reset counter is consumed
only by global variables and aliases (`Function::from_llvm_ref` takes no
counter, src/module.rs line 325), so the same global variable decodes with
Identifier `%0` — contradicting the comment on line 313 ("the second pass
should number everything exactly the same though"). -/
theorem c1_pass1_identifier_not_reproduced :
    lookupName moduleUnnamedFn.gnmap 1 = some (Name.number 1) ∧
      (Module.from_llvm_ref moduleUnnamedFn).map
          (fun md => md.global_vars.map GlobalVariable.name) =
        Except.ok [Name.number 0] := by
  constructor
  · rfl
  · rfl

/-- C3 counterexample: the claim that a non-pointer-typed global makes
decode fail with a reported structural error (a labeled failure outcome)
is false at `moduleNonPtr`: the top-level caller observes a panic (an
abrupt termination, the outer error channel), not an error result. -/
theorem c3_counterexample :
    Module.from_bc_path sampleFs (sampleParser moduleNonPtr) samplePathOk =
      Except.error (Panic.panic "GlobalVariable has a non-pointer type") := by
  rfl

/-- C4: any named-metadata entry with at least one listed node makes
`Module::from_llvm_ref` panic, because the `LLVMToNodeIDMap` consulted by
`NamedMetadata::from_llvm_ref` is created empty (src/module.rs line 316)
and never populated before use (line 337); the claimed NodeID list of
length 2 with resolvable table entries is never produced. -/
theorem c4_named_metadata_panics :
    Module.from_llvm_ref moduleNamedMD =
      Except.error (Panic.panic "Failed to find metadata node in map") := by
  rfl

/-- C5: decoding the same source graph twice yields Modules equal in every
field, including identical numeric Identifiers for anonymous globals: the
decode threads its counter and tables locally (no ambient state), so two
runs on one graph agree. -/
theorem c5_decode_deterministic (m : LLVMModule) (md1 md2 : Module)
    (h1 : Module.from_llvm_ref m = Except.ok md1)
    (h2 : Module.from_llvm_ref m = Except.ok md2) :
    md1 = md2 ∧ md1.name = md2.name ∧
      md1.source_file_name = md2.source_file_name ∧
      md1.data_layout = md2.data_layout ∧
      md1.target_triple = md2.target_triple ∧
      md1.functions = md2.functions ∧
      md1.global_vars = md2.global_vars ∧
      md1.global_aliases = md2.global_aliases ∧
      md1.named_struct_types = md2.named_struct_types ∧
      md1.inline_assembly = md2.inline_assembly ∧
      md1.metadata_nodes = md2.metadata_nodes ∧
      md1.named_metadatas = md2.named_metadatas ∧
      md1.global_vars.map GlobalVariable.name = md2.global_vars.map GlobalVariable.name := by
  have h := h1.symm.trans h2
  simp only [Except.ok.injEq] at h
  subst h
  exact ⟨rfl, rfl, rfl, rfl, rfl, rfl, rfl, rfl, rfl, rfl, rfl, rfl, rfl⟩

/-- C5 witness: both hypotheses discharged at `moduleEmpty`. -/
theorem c5_decode_deterministic_witness :
    moduleEmptyDecoded = moduleEmptyDecoded ∧
      moduleEmptyDecoded.name = moduleEmptyDecoded.name ∧
      moduleEmptyDecoded.source_file_name = moduleEmptyDecoded.source_file_name ∧
      moduleEmptyDecoded.data_layout = moduleEmptyDecoded.data_layout ∧
      moduleEmptyDecoded.target_triple = moduleEmptyDecoded.target_triple ∧
      moduleEmptyDecoded.functions = moduleEmptyDecoded.functions ∧
      moduleEmptyDecoded.global_vars = moduleEmptyDecoded.global_vars ∧
      moduleEmptyDecoded.global_aliases = moduleEmptyDecoded.global_aliases ∧
      moduleEmptyDecoded.named_struct_types = moduleEmptyDecoded.named_struct_types ∧
      moduleEmptyDecoded.inline_assembly = moduleEmptyDecoded.inline_assembly ∧
      moduleEmptyDecoded.metadata_nodes = moduleEmptyDecoded.metadata_nodes ∧
      moduleEmptyDecoded.named_metadatas = moduleEmptyDecoded.named_metadatas ∧
      moduleEmptyDecoded.global_vars.map GlobalVariable.name =
        moduleEmptyDecoded.global_vars.map GlobalVariable.name :=
  c5_decode_deterministic moduleEmpty moduleEmptyDecoded moduleEmptyDecoded rfl rfl

/-- C7 counterexample: the claim that an I/O failure — including a
non-representable path — is surfaced as a descriptive textual error result
is false at `samplePathBad`: a path that is not valid Unicode hits
`.expect("Did not find a valid Unicode path string")` (src/module.rs line
65), a panic, not an error result. -/
theorem c7_counterexample :
    Module.from_bc_path sampleFs (sampleParser moduleEmpty) samplePathBad =
      Except.error (Panic.panic "Did not find a valid Unicode path string") := by
  rfl

/-- C7 (amended): for representable paths, a loader failure or a
deserializer failure is surfaced to the caller as a descriptive textual
error result and the decoder never runs; when loading and deserializing
succeed, the decoded Module is returned. -/
theorem c7_load_errors_surfaced (fs : FileSystem) (parser : BitcodeParser)
    (path : BcPath) (hu : path.valid_unicode = true)
    (hn : path.no_interior_nul = true) :
    (∀ e, fs.read path.repr = Except.error e →
        Module.from_bc_path fs parser path = Except.ok (Except.error e)) ∧
      (∀ buf, fs.read path.repr = Except.ok buf → parser.parse buf = none →
        Module.from_bc_path fs parser path =
          Except.ok (Except.error "Failed to parse bitcode")) ∧
      (∀ buf m md, fs.read path.repr = Except.ok buf →
        parser.parse buf = some m → Module.from_llvm_ref m = Except.ok md →
        Module.from_bc_path fs parser path = Except.ok (Except.ok md)) := by
  refine ⟨?_, ?_, ?_⟩
  · intro e he
    simp [Module.from_bc_path, hu, hn, he]
  · intro buf hb hp
    simp [Module.from_bc_path, hu, hn, hb, hp]
  · intro buf m md hb hp hm
    simp [Module.from_bc_path, hu, hn, hb, hp, hm]

/-- C7 witness: all three amended branches discharged on concrete file
systems, deserializers and a well-formed path. -/
theorem c7_load_errors_surfaced_witness :
    Module.from_bc_path sampleFsErr (sampleParser moduleEmpty) samplePathOk =
        Except.ok (Except.error "No such file or directory") ∧
      Module.from_bc_path sampleFs sampleParserErr samplePathOk =
        Except.ok (Except.error "Failed to parse bitcode") ∧
      Module.from_bc_path sampleFs (sampleParser moduleEmpty) samplePathOk =
        Except.ok (Except.ok moduleEmptyDecoded) :=
  ⟨(c7_load_errors_surfaced sampleFsErr (sampleParser moduleEmpty) samplePathOk rfl rfl).1
      "No such file or directory" rfl,
    (c7_load_errors_surfaced sampleFs sampleParserErr samplePathOk rfl rfl).2.1 [] rfl rfl,
    (c7_load_errors_surfaced sampleFs (sampleParser moduleEmpty) samplePathOk rfl rfl).2.2
      [] moduleEmpty moduleEmptyDecoded rfl rfl rfl⟩

/-- C10: a decoded GlobalVariable's comdat always carries the fixed name
string `"error: not yet implemented: Comdat.name"` (src/module.rs line
503); only the selection kind is taken from the source comdat. -/
theorem c10_comdat_name_placeholder (g : LLVMGlobal) (ctr : Nat)
    (gnmap : GlobalNameMap) (tnmap : TyNameMap) (gv : GlobalVariable)
    (ctr' : Nat) (tnmap' : TyNameMap) (c : Comdat)
    (h : GlobalVariable.from_llvm_ref g ctr gnmap tnmap = Except.ok (gv, ctr', tnmap'))
    (hc : gv.comdat = some c) :
    c.name = "error: not yet implemented: Comdat.name" ∧
      ∃ cr, g.comdat = some cr ∧
        c.selection_kind = SelectionKind.from_llvm cr.selection_kind := by
  obtain ⟨-, -, hcom⟩ := globalVariable_ok_fields _ _ _ _ _ _ _ h
  rw [hcom] at hc
  cases hgc : g.comdat with
  | none => rw [hgc] at hc; simp at hc
  | some cr =>
    rw [hgc] at hc
    simp only [Option.map_some'] at hc
    cases hc
    exact ⟨rfl, cr, rfl, rfl⟩

/-- C10 witness: hypotheses discharged on `comdatGlobal`. -/
theorem c10_comdat_name_placeholder_witness :
    ({ name := "error: not yet implemented: Comdat.name",
       selection_kind := SelectionKind.Largest } : Comdat).name =
        "error: not yet implemented: Comdat.name" ∧
      ∃ cr, comdatGlobal.comdat = some cr ∧
        ({ name := "error: not yet implemented: Comdat.name",
           selection_kind := SelectionKind.Largest } : Comdat).selection_kind =
          SelectionKind.from_llvm cr.selection_kind :=
  c10_comdat_name_placeholder comdatGlobal 0 [] [] comdatGlobalDecoded 0 []
    { name := "error: not yet implemented: Comdat.name",
      selection_kind := SelectionKind.Largest } rfl rfl

/-- `find?` with a name test returns the first match: the list splits as a
prefix with no match, the found element, and a remainder. -/
theorem find_name_some (l : List Function) (s : String) (f : Function)
    (h : l.find? (fun g => g.name == s) = some f) :
    f.name = s ∧ ∃ l1 l2, l = l1 ++ f :: l2 ∧ ∀ g ∈ l1, g.name ≠ s := by
  induction l with
  | nil => simp [List.find?] at h
  | cons g rest ih =>
    by_cases hg : g.name = s
    · rw [List.find?_cons_of_pos] at h
      · simp only [Option.some.injEq] at h
        subst h
        exact ⟨hg, [], rest, rfl, by simp⟩
      · simp [hg]
    · rw [List.find?_cons_of_neg] at h
      · obtain ⟨h1, l1, l2, h2, h3⟩ := ih h
        refine ⟨h1, g :: l1, l2, by simp [h2], ?_⟩
        intro x hx
        rcases List.mem_cons.mp hx with hx | hx
        · subst hx; exact hg
        · exact h3 x hx
      · simp [hg]

/-- `find?` with a name test returns `none` exactly when no element
matches. -/
theorem find_name_none (l : List Function) (s : String) :
    l.find? (fun g => g.name == s) = none ↔ ∀ f ∈ l, f.name ≠ s := by
  rw [List.find?_eq_none]
  constructor
  · intro h f hf
    have := h f hf
    simpa using this
  · intro h f hf
    simpa using h f hf

/-- C9: `Module::get_func_by_name` returns the first Function in the
functions list whose name equals the argument, `none` exactly when no
function in the list has that name; and for a decoded Module the functions
list comes from the defined functions only (src/module.rs lines 324-326),
so declared-only functions are never returned. -/
theorem c9_get_func_by_name (m : Module) (s : String) :
    (∀ f, m.get_func_by_name s = some f →
        f.name = s ∧ ∃ l1 l2, m.functions = l1 ++ f :: l2 ∧ ∀ g ∈ l1, g.name ≠ s) ∧
      (m.get_func_by_name s = none ↔ ∀ f ∈ m.functions, f.name ≠ s) ∧
      (∀ src md, Module.from_llvm_ref src = Except.ok md →
        md.functions.map Function.name = src.defined_functions.map LLVMFunction.name) := by
  refine ⟨?_, ?_, ?_⟩
  · intro f h
    exact find_name_some m.functions s f h
  · exact find_name_none m.functions s
  · intro src md h
    obtain ⟨vs, ctr1, t2, gas, ctr2, t3, nmds, -, -, -, hmd⟩ := module_ok_elim src md h
    subst hmd
    exact decodeFunctions_names src.defined_functions src.gnmap []

/-- C9 witness: the lookup branches and the defined-functions-only shape
discharged on concrete modules. -/
theorem c9_get_func_by_name_witness :
    (({ name := "f" } : Function).name = "f" ∧
        ∃ l1 l2, sampleDecodedModule.functions = l1 ++ ({ name := "f" } : Function) :: l2 ∧
          ∀ g ∈ l1, g.name ≠ "f") ∧
      (∀ f ∈ moduleEmptyDecoded.functions, f.name ≠ "q") ∧
      moduleEmptyDecoded.functions.map Function.name =
        moduleEmpty.defined_functions.map LLVMFunction.name :=
  ⟨(c9_get_func_by_name sampleDecodedModule "f").1 { name := "f" } rfl,
    (c9_get_func_by_name moduleEmptyDecoded "q").2.1.mp rfl,
    (c9_get_func_by_name moduleEmptyDecoded "q").2.2 moduleEmpty moduleEmptyDecoded rfl⟩

/-- C8: a named type referenced only opaquely decodes to an entry in the
Module's named-type map whose value is absent (`none`) — the decode
succeeds (not an error) and the slot is not populated with any default
aggregate. -/
theorem c8_opaque_type_preserved (m : LLVMModule) (g : LLVMGlobal)
    (n : String) (a : Nat)
    (hgl : m.globals = [g]) (hal : m.global_aliases = [])
    (hmd : m.named_metadatas = [])
    (hty : g.ty = LLVMType.pointer (LLVMType.namedOpaque n) a)
    (hinit : g.initializer = none) :
    (Module.from_llvm_ref m).map
        (fun md => slotLookup md.named_struct_types n) =
      Except.ok (some none) := by
  have ht : T.from_llvm_ref g.ty [] =
      (T.PointerType (T.NamedStructType n) a, [(n, none)]) := by
    rw [hty]
    simp [T.from_llvm_ref, slotLookup]
  simp [Module.from_llvm_ref, decodeFunctions_snd, hgl, hal, hmd,
    decodeGlobals, decodeAliases, decodeNamedMDs,
    GlobalVariable.from_llvm_ref, ht, hinit, slotLookup, Except.map]

/-- C8 witness: hypotheses discharged at `moduleOpaque`. -/
theorem c8_opaque_type_preserved_witness :
    (Module.from_llvm_ref moduleOpaque).map
        (fun md => slotLookup md.named_struct_types "opq") =
      Except.ok (some none) :=
  c8_opaque_type_preserved moduleOpaque (sampleGlobal 1 "g"
      (LLVMType.pointer (LLVMType.namedOpaque "opq") 0) none)
    "opq" 0 rfl rfl rfl rfl rfl

/-- Looking a key up in the pass-1 table skips a prefix of nodes whose
identities all differ from the key. -/
theorem lookupName_allocNames_skip (l1 l2 : List (Nat × String)) (c : Nat)
    (x : Nat) (h : x ∉ l1.map Prod.fst) :
    lookupName (allocNames (l1 ++ l2) c).1 x =
      lookupName (allocNames l2 (allocNames l1 c).2).1 x := by
  have h1 : lookupName (allocNames l1 c).1 x = none := by
    apply lookupName_eq_none
    rw [allocNames_fst_map]
    exact h
  rw [allocNames_append, lookupName_append, h1]

/-- C6: two global variables `A` and `B` whose initializers reference each
other decode successfully — the decoder terminates with an `ok` Module —
and `A`'s decoded initializer holds `B`'s Identifier while `B`'s holds
`A`'s, each resolved through the pass-1 name table. -/
theorem c6_circular_references (m : LLVMModule) (ga gb : LLVMGlobal)
    (pa pb : LLVMType) (sa sb : Nat)
    (hgl : m.globals = [ga, gb]) (hal : m.global_aliases = [])
    (hmd : m.named_metadatas = [])
    (hna : ga.name = "A") (hnb : gb.name = "B")
    (hta : ga.ty = LLVMType.pointer pa sa) (htb : gb.ty = LLVMType.pointer pb sb)
    (hia : ga.initializer = some (LLVMConstant.globalRef gb.ref))
    (hib : gb.initializer = some (LLVMConstant.globalRef ga.ref))
    (hfd : ∀ f ∈ m.defined_functions, f.ref ≠ ga.ref ∧ f.ref ≠ gb.ref)
    (hfc : ∀ f ∈ m.declared_functions, f.ref ≠ ga.ref ∧ f.ref ≠ gb.ref)
    (hne : ga.ref ≠ gb.ref) :
    (Module.from_llvm_ref m).map
        (fun md => md.global_vars.map (fun g => (g.name, g.initializer))) =
      Except.ok
        [(Name.name "A", some (Constant.GlobalReference (Name.name "B"))),
          (Name.name "B", some (Constant.GlobalReference (Name.name "A")))] := by
  have hAd : ga.ref ∉ (m.defined_functions.map fun f => (f.ref, f.name)).map Prod.fst := by
    simp only [List.map_map, List.mem_map, Function.comp]
    rintro ⟨f, hf, hfx⟩
    exact (hfd f hf).1 hfx
  have hAc : ga.ref ∉ (m.declared_functions.map fun f => (f.ref, f.name)).map Prod.fst := by
    simp only [List.map_map, List.mem_map, Function.comp]
    rintro ⟨f, hf, hfx⟩
    exact (hfc f hf).1 hfx
  have hBd : gb.ref ∉ (m.defined_functions.map fun f => (f.ref, f.name)).map Prod.fst := by
    simp only [List.map_map, List.mem_map, Function.comp]
    rintro ⟨f, hf, hfx⟩
    exact (hfd f hf).2 hfx
  have hBc : gb.ref ∉ (m.declared_functions.map fun f => (f.ref, f.name)).map Prod.fst := by
    simp only [List.map_map, List.mem_map, Function.comp]
    rintro ⟨f, hf, hfx⟩
    exact (hfc f hf).2 hfx
  have hne' : gb.ref ≠ ga.ref := Ne.symm hne
  have etail : ∀ x : Nat, ∀ c : Nat,
      lookupName (allocNames
        ((m.globals.map fun g => (g.ref, g.name)) ++
          (m.global_aliases.map fun a => (a.ref, a.name))) c).1 x =
      lookupName [(ga.ref, Name.name "A"), (gb.ref, Name.name "B")] x := by
    intro x c
    rw [hgl, hal]
    simp [allocNames, Name.name_or_num, hna, hnb]
  have egn : m.gnmap = (allocNames
      ((m.defined_functions.map fun f => (f.ref, f.name)) ++
        ((m.declared_functions.map fun f => (f.ref, f.name)) ++
          ((m.globals.map fun g => (g.ref, g.name)) ++
            (m.global_aliases.map fun a => (a.ref, a.name))))) 0).1 := by
    unfold LLVMModule.gnmap LLVMModule.pass1_nodes
    rw [List.append_assoc, List.append_assoc]
  have hmapA : lookupName m.gnmap ga.ref = some (Name.name "A") := by
    rw [egn, lookupName_allocNames_skip _ _ _ _ hAd,
      lookupName_allocNames_skip _ _ _ _ hAc, etail]
    simp [lookupName]
  have hmapB : lookupName m.gnmap gb.ref = some (Name.name "B") := by
    rw [egn, lookupName_allocNames_skip _ _ _ _ hBd,
      lookupName_allocNames_skip _ _ _ _ hBc, etail]
    simp [lookupName, hne']
  have htA : T.from_llvm_ref ga.ty [] =
      (T.PointerType (T.from_llvm_ref pa []).1 sa, (T.from_llvm_ref pa []).2) := by
    rw [hta]
    simp [T.from_llvm_ref]
  have htB : ∀ t, T.from_llvm_ref gb.ty t =
      (T.PointerType (T.from_llvm_ref pb t).1 sb, (T.from_llvm_ref pb t).2) := by
    intro t
    rw [htb]
    simp [T.from_llvm_ref]
  simp [Module.from_llvm_ref, decodeFunctions_snd, hgl, hal, hmd,
    decodeGlobals, decodeAliases, decodeNamedMDs,
    GlobalVariable.from_llvm_ref, htA, htB, hia, hib,
    Constant.from_llvm_ref, hmapA, hmapB, hna, hnb, Name.name_or_num, Except.map]

/-- C6 witness: hypotheses discharged at `moduleCircular`. -/
theorem c6_circular_references_witness :
    (Module.from_llvm_ref moduleCircular).map
        (fun md => md.global_vars.map (fun g => (g.name, g.initializer))) =
      Except.ok
        [(Name.name "A", some (Constant.GlobalReference (Name.name "B"))),
          (Name.name "B", some (Constant.GlobalReference (Name.name "A")))] :=
  c6_circular_references moduleCircular
    (sampleGlobal 1 "A" ptrTy (some (LLVMConstant.globalRef 2)))
    (sampleGlobal 2 "B" ptrTy (some (LLVMConstant.globalRef 1)))
    (LLVMType.integer 8) (LLVMType.integer 8) 0 0
    rfl rfl rfl rfl rfl rfl rfl rfl rfl
    (by intro f hf; simp [moduleCircular, sampleModule] at hf)
    (by intro f hf; simp [moduleCircular, sampleModule] at hf)
    (by decide)

/-- C2: in a decoded Module whose source global objects carry pairwise
distinct nonempty textual names (as the foreign API guarantees for a
well-formed graph), the Identifiers of the decoded global variables and
global aliases are pairwise distinct, and the pass-1 table likewise
assigns pairwise distinct Identifiers over all four enumerations — in
particular a counter-synthesized numeric Identifier is never assigned to
two distinct global objects. -/
theorem c2_identifier_uniqueness (m : LLVMModule) (idents : List Name)
    (hnames : (m.pass1_nodes.map Prod.snd).Pairwise
      (fun s t => s ≠ "" → t ≠ "" → s ≠ t))
    (hdec : (Module.from_llvm_ref m).map
        (fun md => md.global_vars.map GlobalVariable.name ++
          md.global_aliases.map GlobalAlias.name) = Except.ok idents) :
    idents.Pairwise (· ≠ ·) ∧
      ((allocNames m.pass1_nodes 0).1.map Prod.snd).Pairwise (· ≠ ·) := by
  refine ⟨?_, allocNames_pairwise _ 0 hnames⟩
  cases hm : Module.from_llvm_ref m with
  | error e => rw [hm] at hdec; simp [Except.map] at hdec
  | ok md =>
    rw [hm] at hdec
    simp only [Except.map, Except.ok.injEq] at hdec
    subst hdec
    obtain ⟨vs, ctr1, t2, gas, ctr2, t3, nmds, hg, ha, -, hmd⟩ := module_ok_elim m md hm
    subst hmd
    dsimp only
    obtain ⟨hvn, hvc⟩ := decodeGlobals_names _ _ _ _ _ _ _ hg
    obtain ⟨han, -⟩ := decodeAliases_names _ _ _ _ _ _ _ ha
    subst hvc
    rw [hvn, han, ← List.map_append]
    have e3 := congrArg Prod.fst (allocNames_append
      (m.globals.map fun g => (g.ref, g.name))
      (m.global_aliases.map fun a => (a.ref, a.name)) 0)
    dsimp only at e3
    rw [← e3]
    apply allocNames_pairwise
    have e2 : m.pass1_nodes =
        ((m.defined_functions.map fun f => (f.ref, f.name)) ++
            (m.declared_functions.map fun f => (f.ref, f.name))) ++
          ((m.globals.map fun g => (g.ref, g.name)) ++
            (m.global_aliases.map fun a => (a.ref, a.name))) := by
      unfold LLVMModule.pass1_nodes
      rw [List.append_assoc]
    have hsub : List.Sublist
        ((m.globals.map fun g => (g.ref, g.name)) ++
          (m.global_aliases.map fun a => (a.ref, a.name))) m.pass1_nodes := by
      rw [e2]
      exact List.sublist_append_right _ _
    exact List.Pairwise.sublist (hsub.map Prod.snd) hnames

/-- C2 witness: hypotheses discharged at `moduleTwoGlobals` (a named and
an unnamed global). -/
theorem c2_identifier_uniqueness_witness :
    ([Name.name "x", Name.number 0] : List Name).Pairwise (· ≠ ·) ∧
      ((allocNames moduleTwoGlobals.pass1_nodes 0).1.map Prod.snd).Pairwise (· ≠ ·) :=
  c2_identifier_uniqueness moduleTwoGlobals [Name.name "x", Name.number 0]
    (by decide) rfl

/-- A non-pointer source type never decodes to a `PointerType`. -/
theorem T_from_llvm_ref_nonpointer (t : LLVMType)
    (hp : ∀ p a, t ≠ LLVMType.pointer p a) (m : TyNameMap) :
    ∀ p a, (T.from_llvm_ref t m).1 ≠ T.PointerType p a := by
  intro p a
  cases t with
  | void => simp [T.from_llvm_ref]
  | integer b => simp [T.from_llvm_ref]
  | pointer q b => exact absurd rfl (hp q b)
  | namedOpaque n =>
    unfold T.from_llvm_ref
    split <;> simp
  | namedStruct n fs =>
    unfold T.from_llvm_ref
    split <;> simp
  | anonStruct fs => simp [T.from_llvm_ref]

/-- A global variable whose source type is not a pointer type decodes to
the panic of src/module.rs line 360. -/
theorem globalVariable_nonpointer_panics (g : LLVMGlobal)
    (hp : ∀ p a, g.ty ≠ LLVMType.pointer p a) (ctr : Nat)
    (gnmap : GlobalNameMap) (tnmap : TyNameMap) :
    GlobalVariable.from_llvm_ref g ctr gnmap tnmap =
      Except.error (Panic.panic "GlobalVariable has a non-pointer type") := by
  simp only [GlobalVariable.from_llvm_ref]
  cases htr : (T.from_llvm_ref g.ty tnmap).1 with
  | PointerType pt a => exact absurd htr (T_from_llvm_ref_nonpointer g.ty hp tnmap pt a)
  | VoidType => rfl
  | IntegerType b => rfl
  | StructType ts => rfl
  | NamedStructType n => rfl

/-- A global alias whose source type is not a pointer type decodes to a
panic (either the aliasee's lookup panic or the panic of src/module.rs
line 404). -/
theorem globalAlias_nonpointer_panics (a : LLVMAlias)
    (hp : ∀ p s, a.ty ≠ LLVMType.pointer p s) (ctr : Nat)
    (gnmap : GlobalNameMap) (tnmap : TyNameMap) :
    ∃ e, GlobalAlias.from_llvm_ref a ctr gnmap tnmap = Except.error e := by
  simp only [GlobalAlias.from_llvm_ref]
  cases hc : Constant.from_llvm_ref a.aliasee gnmap (T.from_llvm_ref a.ty tnmap).2 with
  | error e => exact ⟨e, rfl⟩
  | ok p =>
    obtain ⟨c, t2⟩ := p
    refine ⟨Panic.panic "GlobalAlias has a non-pointer type", ?_⟩
    dsimp only
    cases htr : (T.from_llvm_ref a.ty tnmap).1 with
    | PointerType pt s => exact absurd htr (T_from_llvm_ref_nonpointer a.ty hp tnmap pt s)
    | VoidType => rfl
    | IntegerType b => rfl
    | StructType ts => rfl
    | NamedStructType n => rfl

/-- A non-pointer-typed global variable anywhere in the list aborts the
global-variable fold with a panic. -/
theorem decodeGlobals_err (gs : List LLVMGlobal) (g : LLVMGlobal)
    (hg : g ∈ gs) (hp : ∀ p a, g.ty ≠ LLVMType.pointer p a) (ctr : Nat)
    (gnmap : GlobalNameMap) (tnmap : TyNameMap) :
    ∃ e, decodeGlobals gs ctr gnmap tnmap = Except.error e := by
  induction gs generalizing ctr tnmap with
  | nil => cases hg
  | cons hd rest ih =>
    rcases List.mem_cons.mp hg with hh | hh
    · subst hh
      refine ⟨Panic.panic "GlobalVariable has a non-pointer type", ?_⟩
      unfold decodeGlobals
      rw [globalVariable_nonpointer_panics g hp]
    · cases hgv : GlobalVariable.from_llvm_ref hd ctr gnmap tnmap with
      | error e => exact ⟨e, by unfold decodeGlobals; rw [hgv]⟩
      | ok p =>
        obtain ⟨gv, c1, m1⟩ := p
        obtain ⟨e, he⟩ := ih hh c1 m1
        refine ⟨e, ?_⟩
        unfold decodeGlobals
        rw [hgv]
        dsimp only
        rw [he]

/-- A non-pointer-typed global alias anywhere in the list aborts the
alias fold with a panic. -/
theorem decodeAliases_err (als : List LLVMAlias) (al : LLVMAlias)
    (hal : al ∈ als) (hp : ∀ p s, al.ty ≠ LLVMType.pointer p s) (ctr : Nat)
    (gnmap : GlobalNameMap) (tnmap : TyNameMap) :
    ∃ e, decodeAliases als ctr gnmap tnmap = Except.error e := by
  induction als generalizing ctr tnmap with
  | nil => cases hal
  | cons hd rest ih =>
    rcases List.mem_cons.mp hal with hh | hh
    · subst hh
      obtain ⟨e, he⟩ := globalAlias_nonpointer_panics al hp ctr gnmap tnmap
      exact ⟨e, by unfold decodeAliases; rw [he]⟩
    · cases hga : GlobalAlias.from_llvm_ref hd ctr gnmap tnmap with
      | error e => exact ⟨e, by unfold decodeAliases; rw [hga]⟩
      | ok p =>
        obtain ⟨ga, c1, m1⟩ := p
        obtain ⟨e, he⟩ := ih hh c1 m1
        refine ⟨e, ?_⟩
        unfold decodeAliases
        rw [hga]
        dsimp only
        rw [he]

/-- C3 (amended): a global variable or global alias whose resolved type is
not a pointer type makes `Module::from_llvm_ref` terminate abruptly — the
whole decode aborts with a panic and no Module is ever returned (never a
silently-wrong result); the failure is an unreported abrupt termination
(`panic!`, src/module.rs lines 360 and 404), not a recoverable error
result surfaced to the caller. -/
theorem c3_nonpointer_global_panics (m : LLVMModule)
    (h : (∃ g ∈ m.globals, ∀ p a, g.ty ≠ LLVMType.pointer p a) ∨
      (∃ al ∈ m.global_aliases, ∀ p s, al.ty ≠ LLVMType.pointer p s)) :
    ∃ e, Module.from_llvm_ref m = Except.error e := by
  rcases h with ⟨g, hg, hp⟩ | ⟨al, hal, hp⟩
  · obtain ⟨e, he⟩ := decodeGlobals_err m.globals g hg hp 0 m.gnmap
      (decodeFunctions m.defined_functions m.gnmap []).2
    refine ⟨e, ?_⟩
    simp only [Module.from_llvm_ref]
    rw [he]
  · cases hdg : decodeGlobals m.globals 0 m.gnmap
        (decodeFunctions m.defined_functions m.gnmap []).2 with
    | error e =>
      refine ⟨e, ?_⟩
      simp only [Module.from_llvm_ref]
      rw [hdg]
    | ok p =>
      obtain ⟨vs, c1, t2⟩ := p
      obtain ⟨e, he⟩ := decodeAliases_err m.global_aliases al hal hp c1 m.gnmap t2
      refine ⟨e, ?_⟩
      simp only [Module.from_llvm_ref]
      rw [hdg]
      dsimp only
      rw [he]

/-- C3 witness: hypotheses discharged at `moduleNonPtr`. -/
theorem c3_nonpointer_global_panics_witness :
    ∃ e, Module.from_llvm_ref moduleNonPtr = Except.error e :=
  c3_nonpointer_global_panics moduleNonPtr
    (Or.inl ⟨sampleGlobal 5 "x" (LLVMType.integer 32) none,
      by simp [moduleNonPtr, sampleModule],
      by intro p a; simp [sampleGlobal]⟩)
end LlvmIr
